import Mathlib

/-!
Verification of the virtual-device service of Hell0W0rID/IIOTServer.

The definitions below are a shallow embedding of
`internal/device/virtual/service.go` together with the constants and
model constructors it uses from `pkg/core-contracts/models/utils.go`.
Go maps are embedded as association lists with unique keys, the
`stopChannels map[string]chan bool` as the list of ids holding a stop
channel, HTTP handlers as pure state transformers returning the new
service state and the HTTP status code, and `rand.Float64()` as an
explicit rational parameter `r` with `0 ≤ r < 1`.
-/

namespace Virtual

/-- Constant `DeviceVirtualServiceKey` from pkg/core-contracts (utils.go). -/
def DeviceVirtualServiceKey : String := "device-virtual"

/-- Constant `Unlocked` (admin state) from pkg/core-contracts. -/
def Unlocked : String := "UNLOCKED"

/-- Constant `Up` (operating state) from pkg/core-contracts. -/
def Up : String := "UP"

/-- Constant `ValueTypeFloat64` from pkg/core-contracts. -/
def ValueTypeFloat64 : String := "Float64"

/-- Embedding of the Go struct `VirtualDevice` (service.go).  `Protocols`
is an association list standing for `map[string]string`; `LastReading`
(a `time.Time`) is an integer timestamp whose zero value is 0. -/
structure VirtualDevice where
  id : String
  name : String
  description : String
  profileName : String
  serviceName : String
  adminState : String
  operatingState : String
  protocols : List (String × String)
  lastReading : Int
  isRunning : Bool
  deriving DecidableEq

/-- Lookup in an association list embedding a Go map: the value stored
at key `k`, if any. -/
def findKey {β : Type} : List (String × β) → String → Option β
  | [], _ => none
  | (k₁, v) :: rest, k => if k₁ = k then some v else findKey rest k

/-- Go map assignment `m[k] = v`: stores `v` at `k`, replacing any
previous binding. -/
def alistInsert {β : Type} (m : List (String × β)) (k : String) (v : β) :
    List (String × β) :=
  (k, v) :: m.filter (fun p => p.1 != k)

/-- Go `delete(m, k)`: removes the binding at `k`, if any. -/
def alistRemove {β : Type} (m : List (String × β)) (k : String) :
    List (String × β) :=
  m.filter (fun p => p.1 != k)

/-- Adding an id to the set of ids holding a stop channel
(`stopChannels[id] = make(chan bool)`). -/
def setAdd (l : List String) (x : String) : List String :=
  x :: l.filter (fun y => y != x)

/-- Removing an id from the set of ids holding a stop channel
(`delete(stopChannels, id)`). -/
def setRemove (l : List String) (x : String) : List String :=
  l.filter (fun y => y != x)

/-- Go map read `m[k]` on a `map[string]string`: yields the zero value
`""` when the key is absent. -/
def protoGet : List (String × String) → String → String
  | [], _ => ""
  | (k₁, v) :: rest, k => if k₁ = k then v else protoGet rest k

/-- The mutable state of `DeviceVirtualService`: the `virtualDevices`
registry and the domain of the `stopChannels` map.  (The logger and the
mutex carry no specification-relevant state; handlers run atomically
under the mutex.) -/
structure ServiceState where
  virtualDevices : List (String × VirtualDevice)
  stopChannels : List String
  deriving DecidableEq

/-- The record `createVirtualDevice` stores: the decoded descriptor
with the generated id, the forced service name, `IsRunning = false`,
and defaults for empty admin and operating states. -/
def createdDevice (d : VirtualDevice) (freshId : String) : VirtualDevice :=
  { d with
    id := freshId
    serviceName := DeviceVirtualServiceKey
    isRunning := false
    adminState := if d.adminState = "" then Unlocked else d.adminState
    operatingState := if d.operatingState = "" then Up else d.operatingState }

/-- Handler `createVirtualDevice` (POST /api/v3/device/virtual).
`body = none` embeds a request body that fails to JSON-decode (`Invalid
JSON`, 400); `body = some d` is the decoded descriptor, with Go zero
values (`""`, `[]`, `0`, `false`) for fields the request omitted.
`freshId` is the value of `models.GenerateUUID()`. -/
def createVirtualDevice (s : ServiceState) (body : Option VirtualDevice)
    (freshId : String) : ServiceState × Nat :=
  match body with
  | none => (s, 400)
  | some d =>
    ({ s with virtualDevices :=
        alistInsert s.virtualDevices freshId (createdDevice d freshId) }, 201)

/-- Handler `getVirtualDevice` (GET /api/v3/device/virtual/:id):
returns the (unchanged) state, the status code and the device found. -/
def getVirtualDevice (s : ServiceState) (id : String) :
    ServiceState × Nat × Option VirtualDevice :=
  match findKey s.virtualDevices id with
  | none => (s, 404, none)
  | some device => (s, 200, some device)

/-- The record `updateVirtualDevice` stores: the decoded body with the
path id and the existing running flag written back over it. -/
def updatedRecord (updatedDevice existingDevice : VirtualDevice) (id : String) :
    VirtualDevice :=
  { updatedDevice with id := id, isRunning := existingDevice.isRunning }

/-- Handler `updateVirtualDevice` (PUT /api/v3/device/virtual/:id).
The decoded body replaces the stored record wholesale, except that the
handler writes back `Id` and `IsRunning` from the existing record. -/
def updateVirtualDevice (s : ServiceState) (id : String)
    (body : Option VirtualDevice) : ServiceState × Nat :=
  match body with
  | none => (s, 400)
  | some updatedDevice =>
    match findKey s.virtualDevices id with
    | none => (s, 404)
    | some existingDevice =>
      ({ s with virtualDevices :=
          alistInsert s.virtualDevices id (updatedRecord updatedDevice existingDevice id) },
       200)

/-- Handler `deleteVirtualDevice` (DELETE /api/v3/device/virtual/:id):
if the device is running its stop channel is closed and removed, then
the record is removed. -/
def deleteVirtualDevice (s : ServiceState) (id : String) : ServiceState × Nat :=
  match findKey s.virtualDevices id with
  | none => (s, 404)
  | some device =>
    ({ virtualDevices := alistRemove s.virtualDevices id
       stopChannels :=
         if device.isRunning then setRemove s.stopChannels id else s.stopChannels },
     200)

/-- Handler `startDevice` (POST /api/v3/device/virtual/:id/start):
attaches a stop channel and marks the record running, only when the
device exists and is not already running. -/
def startDevice (s : ServiceState) (id : String) : ServiceState × Nat :=
  match findKey s.virtualDevices id with
  | none => (s, 404)
  | some device =>
    if device.isRunning then (s, 200)
    else
      ({ virtualDevices := alistInsert s.virtualDevices id { device with isRunning := true }
         stopChannels := setAdd s.stopChannels id }, 200)

/-- Handler `stopDevice` (POST /api/v3/device/virtual/:id/stop):
clears the running flag and closes/removes the stop channel, only when
the device exists and is running. -/
def stopDevice (s : ServiceState) (id : String) : ServiceState × Nat :=
  match findKey s.virtualDevices id with
  | none => (s, 404)
  | some device =>
    if device.isRunning then
      ({ virtualDevices := alistInsert s.virtualDevices id { device with isRunning := false }
         stopChannels := setRemove s.stopChannels id }, 200)
    else (s, 200)

/-- One iteration of the `startDataGeneration` loop on a registry
entry: a device that is not running is marked running. -/
def markRunning (p : String × VirtualDevice) : String × VirtualDevice :=
  if p.2.isRunning then p else (p.1, { p.2 with isRunning := true })

/-- `startDataGeneration`: for every registered device that is not
running, sets `IsRunning = true`, installs a stop channel and spawns
its generation goroutine. -/
def startDataGeneration (s : ServiceState) : ServiceState :=
  { virtualDevices := s.virtualDevices.map markRunning
    stopChannels :=
      List.foldl setAdd s.stopChannels
        ((s.virtualDevices.filter (fun p => !p.2.isRunning)).map Prod.fst) }

/-- The default temperature device built by `initializeDefaultDevices`,
with `u` the generated UUID. -/
def defaultTemperatureDevice (u : String) : VirtualDevice :=
  { id := u
    name := "Virtual-Temperature-Sensor-01"
    description := "Virtual temperature sensor for testing"
    profileName := "TemperatureSensorProfile"
    serviceName := DeviceVirtualServiceKey
    adminState := Unlocked
    operatingState := Up
    protocols := [("virtual", "true"), ("type", "temperature")]
    lastReading := 0
    isRunning := false }

/-- The default humidity device built by `initializeDefaultDevices`. -/
def defaultHumidityDevice (u : String) : VirtualDevice :=
  { id := u
    name := "Virtual-Humidity-Sensor-01"
    description := "Virtual humidity sensor for testing"
    profileName := "HumiditySensorProfile"
    serviceName := DeviceVirtualServiceKey
    adminState := Unlocked
    operatingState := Up
    protocols := [("virtual", "true"), ("type", "humidity")]
    lastReading := 0
    isRunning := false }

/-- The default pressure device built by `initializeDefaultDevices`. -/
def defaultPressureDevice (u : String) : VirtualDevice :=
  { id := u
    name := "Virtual-Pressure-Sensor-01"
    description := "Virtual pressure sensor for testing"
    profileName := "PressureSensorProfile"
    serviceName := DeviceVirtualServiceKey
    adminState := Unlocked
    operatingState := Up
    protocols := [("virtual", "true"), ("type", "pressure")]
    lastReading := 0
    isRunning := false }

/-- `initializeDefaultDevices`: inserts the three sample devices into
the registry; `u₁ u₂ u₃` are the three generated UUIDs. -/
def initializeDefaultDevices (s : ServiceState) (u₁ u₂ u₃ : String) : ServiceState :=
  let m₁ := alistInsert s.virtualDevices u₁ (defaultTemperatureDevice u₁)
  let m₂ := alistInsert m₁ u₂ (defaultHumidityDevice u₂)
  let m₃ := alistInsert m₂ u₃ (defaultPressureDevice u₃)
  { s with virtualDevices := m₃ }

/-- `NewDeviceVirtualService`: empty registry and channel map, then the
three default devices. -/
def newDeviceVirtualService (u₁ u₂ u₃ : String) : ServiceState :=
  initializeDefaultDevices { virtualDevices := [], stopChannels := [] } u₁ u₂ u₃

/-- `Initialize` (BootstrapHandler): runs `startDataGeneration` and
returns `true`. -/
def serviceInit (s : ServiceState) : ServiceState × Bool :=
  (startDataGeneration s, true)

/-- Embedding of the struct `SimpleReading` (utils.go). -/
structure SimpleReading where
  value : String
  units : String
  deriving DecidableEq

/-- Embedding of the struct `Reading` (utils.go), restricted to the
fields `NewSimpleReading` populates;  `Origin`, `Created`, `Modified`
are millisecond timestamps. -/
structure Reading where
  id : String
  origin : Int
  deviceName : String
  resourceName : String
  profileName : String
  valueType : String
  simpleReading : SimpleReading
  created : Int
  modified : Int
  deriving DecidableEq

/-- `models.NewSimpleReading` (utils.go); `uuid` is the value of
`GenerateUUID()` and `now` the current millisecond timestamp. -/
def NewSimpleReading (profileName deviceName resourceName valueType value : String)
    (uuid : String) (now : Int) : Reading :=
  { id := uuid
    origin := now
    deviceName := deviceName
    resourceName := resourceName
    profileName := profileName
    valueType := valueType
    simpleReading := { value := value, units := "" }
    created := now
    modified := now }

/-- Rounding of `q` to the nearest integer, ties to even — the rounding
`fmt.Sprintf` applies to the last kept decimal digit. -/
def roundHalfEven (q : ℚ) : ℤ :=
  if q - ⌊q⌋ < 1/2 then ⌊q⌋
  else if 1/2 < q - ⌊q⌋ then ⌊q⌋ + 1
  else if ⌊q⌋ % 2 = 0 then ⌊q⌋ else ⌊q⌋ + 1

/-- Decimal rendering of `c < 100` as exactly two digit characters. -/
def twoDigitStr (c : ℕ) : String :=
  toString (c / 10) ++ toString (c % 10)

/-- Embedding of `fmt.Sprintf("%.2f", q)` for the nonnegative values
produced by `generateReading`: the integer part, a dot, then exactly
two decimal digits of the value rounded to hundredths. -/
def fmt2 (q : ℚ) : String :=
  let n : ℕ := (roundHalfEven (q * 100)).toNat
  toString (n / 100) ++ "." ++ twoDigitStr (n % 100)

/-- Numeric value produced by the `switch deviceType` of
`generateReading` before formatting; `r` embeds `rand.Float64()`. -/
def generateRawValue (device : VirtualDevice) (r : ℚ) : ℚ :=
  if protoGet device.protocols "type" = "temperature" then 20 + r * 15
  else if protoGet device.protocols "type" = "humidity" then 30 + r * 40
  else if protoGet device.protocols "type" = "pressure" then 1013 + r * 20
  else r * 100

/-- Units string chosen by the `switch deviceType` of `generateReading`. -/
def generateUnits (device : VirtualDevice) : String :=
  if protoGet device.protocols "type" = "temperature" then "Celsius"
  else if protoGet device.protocols "type" = "humidity" then "Percent"
  else if protoGet device.protocols "type" = "pressure" then "hPa"
  else "Units"

/-- Resource name chosen by the `switch deviceType` of `generateReading`. -/
def generateResourceName (device : VirtualDevice) : String :=
  if protoGet device.protocols "type" = "temperature" then "Temperature"
  else if protoGet device.protocols "type" = "humidity" then "Humidity"
  else if protoGet device.protocols "type" = "pressure" then "Pressure"
  else "GenericSensor"

/-- `generateReading` (service.go): formats the drawn value to two
decimals, builds a simple reading and sets its units. -/
def generateReading (device : VirtualDevice) (r : ℚ) (uuid : String) (now : Int) :
    Reading :=
  let value := fmt2 (generateRawValue device r)
  let reading := NewSimpleReading device.profileName device.name
    (generateResourceName device) ValueTypeFloat64 value uuid now
  { reading with simpleReading := { reading.simpleReading with units := generateUnits device } }

/-!
Concurrency model for stop/delete versus the generation goroutine.

`generateDeviceData` runs as a goroutine per started device: it loops on
a `select` over the 5-second ticker and the stop channel; on a tick it
runs `publishSensorReading` (emits a reading), on a stop-channel receive
it returns.  `stopDevice`/`deleteVirtualDevice` close the channel and
delete it from the map inside the mutex and return; they perform no
join on the goroutine.  The small-step relation `CStep` makes each of
these atomic sections one step and interleaves them with the goroutine
steps.  The model is generous to the code in one respect: a loop in its
`select` may observe the close even after the map entry was deleted
(as happens when the goroutine was already parked on the captured
channel), which only makes the loop stop more often than the real code.
-/

/-- Phase of one generation goroutine: parked in its `select`, or
executing `publishSensorReading` after its ticker fired. -/
inductive LoopPhase where
  | selecting : LoopPhase
  | emitting : LoopPhase
  deriving DecidableEq

/-- State of the service together with the generation goroutines:
`chanInMap` is the domain of `stopChannels`, `chanClosed` the set of
ids whose current stop channel has been closed, `loops` the goroutines
that have not returned, and `emitted` the log of emitted readings
(device ids, most recent first). -/
structure ConcState where
  virtualDevices : List (String × VirtualDevice)
  chanInMap : List String
  chanClosed : List String
  loops : List (String × LoopPhase)
  emitted : List String
  deriving DecidableEq

/-- Interleaved small-step semantics of the handlers (each mutex-held
section is one atomic step) and the generation goroutines. -/
inductive CStep : ConcState → ConcState → Prop where
  | tickFire (s : ConcState) (id : String)
      (hloop : findKey s.loops id = some LoopPhase.selecting) :
      CStep s { s with loops := alistInsert s.loops id LoopPhase.emitting }
  | emitFinish (s : ConcState) (id : String)
      (hloop : findKey s.loops id = some LoopPhase.emitting) :
      CStep s { s with
        loops := alistInsert s.loops id LoopPhase.selecting
        emitted := id :: s.emitted }
  | observeStop (s : ConcState) (id : String)
      (hloop : findKey s.loops id = some LoopPhase.selecting)
      (hclosed : id ∈ s.chanClosed) :
      CStep s { s with loops := alistRemove s.loops id }
  | startReq (s : ConcState) (id : String) (d : VirtualDevice)
      (hfind : findKey s.virtualDevices id = some d)
      (hnot : d.isRunning = false) :
      CStep s { s with
        virtualDevices := alistInsert s.virtualDevices id { d with isRunning := true }
        chanInMap := setAdd s.chanInMap id
        chanClosed := setRemove s.chanClosed id
        loops := alistInsert s.loops id LoopPhase.selecting }
  | stopReq (s : ConcState) (id : String) (d : VirtualDevice)
      (hfind : findKey s.virtualDevices id = some d)
      (hrun : d.isRunning = true) :
      CStep s { s with
        virtualDevices := alistInsert s.virtualDevices id { d with isRunning := false }
        chanInMap := setRemove s.chanInMap id
        chanClosed := setAdd s.chanClosed id }
  | deleteReq (s : ConcState) (id : String) (d : VirtualDevice)
      (hfind : findKey s.virtualDevices id = some d) :
      CStep s { s with
        virtualDevices := alistRemove s.virtualDevices id
        chanInMap := if d.isRunning then setRemove s.chanInMap id else s.chanInMap
        chanClosed := if d.isRunning then setAdd s.chanClosed id else s.chanClosed }

/-- The correspondence between the two maps of the service: an id holds
a stop channel exactly when its registry record exists and is running. -/
def LoopInvariant (s : ServiceState) : Prop :=
  ∀ id : String, id ∈ s.stopChannels ↔
    ∃ d, findKey s.virtualDevices id = some d ∧ d.isRunning = true

/-- Well-formedness of a service state: registry keys and stop-channel
ids are duplicate-free (they embed Go maps) and the loop correspondence
holds. -/
def StateWF (s : ServiceState) : Prop :=
  (s.virtualDevices.map Prod.fst).Nodup ∧ s.stopChannels.Nodup ∧ LoopInvariant s

/-- States of the service reachable from the constructor through the
bootstrap step and the five mutating handlers, each handler running
atomically under the service mutex.  `create` records that
`models.GenerateUUID()` yields an id not already in use. -/
inductive Reachable : ServiceState → Prop where
  | boot (u₁ u₂ u₃ : String) : Reachable (newDeviceVirtualService u₁ u₂ u₃)
  | generation {s : ServiceState} : Reachable s → Reachable (startDataGeneration s)
  | create {s : ServiceState} (body : Option VirtualDevice) (freshId : String)
      (hfresh : findKey s.virtualDevices freshId = none) :
      Reachable s → Reachable (createVirtualDevice s body freshId).1
  | fetch {s : ServiceState} (id : String) :
      Reachable s → Reachable (getVirtualDevice s id).1
  | update {s : ServiceState} (id : String) (body : Option VirtualDevice) :
      Reachable s → Reachable (updateVirtualDevice s id body).1
  | remove {s : ServiceState} (id : String) :
      Reachable s → Reachable (deleteVirtualDevice s id).1
  | start {s : ServiceState} (id : String) :
      Reachable s → Reachable (startDevice s id).1
  | stop {s : ServiceState} (id : String) :
      Reachable s → Reachable (stopDevice s id).1

/-- A service state with nothing registered, used for concrete checks. -/
def emptyService : ServiceState :=
  { virtualDevices := [], stopChannels := [] }

/-- A decoded creation descriptor whose every field is the Go zero
value — the decode of the JSON body `{}`, which in particular carries
no name. -/
def noNameDescriptor : VirtualDevice :=
  { id := ""
    name := ""
    description := ""
    profileName := ""
    serviceName := ""
    adminState := ""
    operatingState := ""
    protocols := []
    lastReading := 0
    isRunning := false }

/-- A decoded creation descriptor that asks for a specific id and for
`isRunning = true`, to check both are overridden by `create`. -/
def descRunning : VirtualDevice :=
  { noNameDescriptor with
    id := "attacker-chosen-id"
    name := "Device-X"
    isRunning := true }

/-- The freshly constructed service with concrete UUIDs, for concrete
checks. -/
def bootABC : ServiceState := newDeviceVirtualService "a" "b" "c"

/-- The service of `bootABC` after `Initialize` ran
`startDataGeneration`: every default device is running. -/
def runABC : ServiceState := startDataGeneration bootABC

/-- Concrete device for the concurrency scenario. -/
def concDevice : VirtualDevice := defaultTemperatureDevice "d1"

/-- Concurrency scenario, step 0: one registered device, stopped, no
channel, no goroutine. -/
def concBoot : ConcState :=
  { virtualDevices := [("d1", concDevice)]
    chanInMap := []
    chanClosed := []
    loops := []
    emitted := [] }

/-- Concurrency scenario after `startDevice`: record running, stop
channel installed, goroutine parked in its `select`. -/
def concStarted : ConcState :=
  { virtualDevices := [("d1", { concDevice with isRunning := true })]
    chanInMap := ["d1"]
    chanClosed := []
    loops := [("d1", LoopPhase.selecting)]
    emitted := [] }

/-- Concurrency scenario after the ticker fired: the goroutine is
inside `publishSensorReading`, i.e. a reading emission is in flight. -/
def concTicked : ConcState :=
  { concStarted with loops := [("d1", LoopPhase.emitting)] }

/-- Concurrency scenario after `stopDevice` returned while the emission
was in flight: record stopped, channel closed and deleted, but the
goroutine is still mid-emission. -/
def concStopped : ConcState :=
  { virtualDevices := [("d1", concDevice)]
    chanInMap := []
    chanClosed := ["d1"]
    loops := [("d1", LoopPhase.emitting)]
    emitted := [] }

/-- Concurrency scenario end: the in-flight emission completes after
`stopDevice` already returned. -/
def concEmitted : ConcState :=
  { concStopped with
    loops := [("d1", LoopPhase.selecting)]
    emitted := ["d1"] }

theorem findKey_filter_ne {β : Type} (m : List (String × β)) (k k' : String)
    (h : k ≠ k') : findKey (m.filter (fun p => p.1 != k)) k' = findKey m k' := by
  induction m with
  | nil => rfl
  | cons p rest ih =>
    obtain ⟨a, b⟩ := p
    by_cases hak : a = k
    · subst hak
      have hak' : a ≠ k' := h
      simp [List.filter_cons, findKey, hak', ih]
    · simp [List.filter_cons, findKey, hak, ih]

theorem findKey_filter_self {β : Type} (m : List (String × β)) (k : String) :
    findKey (m.filter (fun p => p.1 != k)) k = none := by
  induction m with
  | nil => rfl
  | cons p rest ih =>
    obtain ⟨a, b⟩ := p
    by_cases hak : a = k
    · subst hak
      simp [List.filter_cons, ih]
    · simp [List.filter_cons, findKey, hak, ih]

theorem findKey_alistInsert {β : Type} (m : List (String × β)) (k : String) (v : β)
    (k' : String) :
    findKey (alistInsert m k v) k' = if k = k' then some v else findKey m k' := by
  by_cases h : k = k'
  · subst h
    simp [alistInsert, findKey]
  · simp [alistInsert, findKey, h, findKey_filter_ne m k k' h]

theorem findKey_alistRemove {β : Type} (m : List (String × β)) (k k' : String) :
    findKey (alistRemove m k) k' = if k = k' then none else findKey m k' := by
  by_cases h : k = k'
  · subst h
    simp [alistRemove, findKey_filter_self]
  · simp [alistRemove, h, findKey_filter_ne m k k' h]

theorem mem_setAdd (l : List String) (x y : String) :
    y ∈ setAdd l x ↔ y = x ∨ y ∈ l := by
  by_cases hyx : y = x
  · subst hyx
    simp [setAdd]
  · simp [setAdd, hyx, List.mem_filter]

theorem mem_setRemove (l : List String) (x y : String) :
    y ∈ setRemove l x ↔ y ∈ l ∧ y ≠ x := by
  simp [setRemove, List.mem_filter]

theorem nodup_setAdd {l : List String} (h : l.Nodup) (x : String) :
    (setAdd l x).Nodup := by
  refine List.nodup_cons.mpr ⟨?_, h.filter _⟩
  simp [List.mem_filter]

theorem nodup_setRemove {l : List String} (h : l.Nodup) (x : String) :
    (setRemove l x).Nodup :=
  h.filter _

theorem map_fst_filter_ne {β : Type} (m : List (String × β)) (k : String) :
    (m.filter (fun p => p.1 != k)).map Prod.fst
      = (m.map Prod.fst).filter (fun a => a != k) := by
  induction m with
  | nil => rfl
  | cons p rest ih =>
    obtain ⟨a, b⟩ := p
    by_cases hak : a = k <;> simp [List.filter_cons, hak, ih]

theorem nodup_keys_alistInsert {β : Type} {m : List (String × β)}
    (h : (m.map Prod.fst).Nodup) (k : String) (v : β) :
    ((alistInsert m k v).map Prod.fst).Nodup := by
  unfold alistInsert
  rw [List.map_cons, map_fst_filter_ne]
  refine List.nodup_cons.mpr ⟨?_, h.filter _⟩
  simp [List.mem_filter]

theorem nodup_keys_alistRemove {β : Type} {m : List (String × β)}
    (h : (m.map Prod.fst).Nodup) (k : String) :
    ((alistRemove m k).map Prod.fst).Nodup := by
  unfold alistRemove
  rw [map_fst_filter_ne]
  exact h.filter _

theorem mem_of_findKey_eq_some {β : Type} {m : List (String × β)} {k : String} {v : β}
    (h : findKey m k = some v) : (k, v) ∈ m := by
  induction m with
  | nil => cases h
  | cons p rest ih =>
    obtain ⟨a, b⟩ := p
    by_cases hak : a = k
    · subst hak
      simp [findKey] at h
      simp [h]
    · simp [findKey, hak] at h
      exact List.mem_cons_of_mem _ (ih h)

theorem findKey_eq_some_of_mem {β : Type} {m : List (String × β)}
    (hnd : (m.map Prod.fst).Nodup) {k : String} {v : β}
    (h : (k, v) ∈ m) : findKey m k = some v := by
  induction m with
  | nil => cases h
  | cons p rest ih =>
    obtain ⟨a, b⟩ := p
    rw [List.map_cons, List.nodup_cons] at hnd
    rcases List.mem_cons.mp h with heq | hmem
    · rw [Prod.mk.injEq] at heq
      obtain ⟨rfl, rfl⟩ := heq
      simp [findKey]
    · by_cases hak : a = k
      · subst hak
        exact absurd (List.mem_map_of_mem Prod.fst hmem) hnd.1
      · simp only [findKey, if_neg hak]
        exact ih hnd.2 hmem

theorem findKey_map_markRunning (m : List (String × VirtualDevice)) (k : String) :
    findKey (m.map markRunning) k
      = (findKey m k).map
          (fun d => if d.isRunning then d else { d with isRunning := true }) := by
  induction m with
  | nil => rfl
  | cons p rest ih =>
    obtain ⟨a, b⟩ := p
    have hmr : markRunning (a, b)
        = (a, if b.isRunning then b else { b with isRunning := true }) := by
      unfold markRunning
      by_cases hb : b.isRunning <;> simp [hb]
    rw [List.map_cons, hmr]
    by_cases hak : a = k
    · subst hak
      simp [findKey]
    · simp [findKey, hak, ih]

theorem map_fst_markRunning (m : List (String × VirtualDevice)) :
    (m.map markRunning).map Prod.fst = m.map Prod.fst := by
  induction m with
  | nil => rfl
  | cons p rest ih =>
    obtain ⟨a, b⟩ := p
    have hmr : markRunning (a, b)
        = (a, if b.isRunning then b else { b with isRunning := true }) := by
      unfold markRunning
      by_cases hb : b.isRunning <;> simp [hb]
    rw [List.map_cons, hmr, List.map_cons, List.map_cons, ih]

theorem mem_foldl_setAdd (ids : List String) (l : List String) (x : String) :
    x ∈ List.foldl setAdd l ids ↔ x ∈ l ∨ x ∈ ids := by
  induction ids generalizing l with
  | nil => simp
  | cons a rest ih =>
    simp only [List.foldl_cons, ih, mem_setAdd, List.mem_cons]
    tauto

theorem nodup_foldl_setAdd (ids : List String) {l : List String} (h : l.Nodup) :
    (List.foldl setAdd l ids).Nodup := by
  induction ids generalizing l with
  | nil => exact h
  | cons a rest ih => exact ih (nodup_setAdd h a)

theorem mem_map_fst_filter_not_running (m : List (String × VirtualDevice)) (x : String) :
    (x ∈ (m.filter (fun p => !p.2.isRunning)).map Prod.fst) ↔
      ∃ d, (x, d) ∈ m ∧ d.isRunning = false := by
  simp only [List.mem_map, List.mem_filter]
  constructor
  · rintro ⟨⟨a, d⟩, ⟨hm, hr⟩, rfl⟩
    exact ⟨d, hm, by simpa using hr⟩
  · rintro ⟨d, hm, hr⟩
    exact ⟨⟨x, d⟩, ⟨hm, by simp [hr]⟩, rfl⟩

theorem getVirtualDevice_state (s : ServiceState) (id : String) :
    (getVirtualDevice s id).1 = s := by
  cases hfind : findKey s.virtualDevices id <;> simp [getVirtualDevice, hfind]

theorem wf_boot (u₁ u₂ u₃ : String) : StateWF (newDeviceVirtualService u₁ u₂ u₃) := by
  refine ⟨?_, List.nodup_nil, ?_⟩
  · simp only [newDeviceVirtualService, initializeDefaultDevices]
    apply nodup_keys_alistInsert
    apply nodup_keys_alistInsert
    apply nodup_keys_alistInsert
    simp
  · intro id
    constructor
    · intro hmem
      exact absurd hmem (List.not_mem_nil id)
    · rintro ⟨d, hfind, hrun⟩
      exfalso
      simp only [newDeviceVirtualService, initializeDefaultDevices] at hfind
      rw [findKey_alistInsert] at hfind
      split_ifs at hfind with h₃
      · cases hfind
        simp [defaultPressureDevice] at hrun
      · rw [findKey_alistInsert] at hfind
        split_ifs at hfind with h₂
        · cases hfind
          simp [defaultHumidityDevice] at hrun
        · rw [findKey_alistInsert] at hfind
          split_ifs at hfind with h₁
          · cases hfind
            simp [defaultTemperatureDevice] at hrun
          · cases hfind

theorem wf_generation {s : ServiceState} (h : StateWF s) :
    StateWF (startDataGeneration s) := by
  obtain ⟨hk, hc, hinv⟩ := h
  refine ⟨?_, nodup_foldl_setAdd _ hc, ?_⟩
  · rw [show (startDataGeneration s).virtualDevices = s.virtualDevices.map markRunning
      from rfl, map_fst_markRunning]
    exact hk
  · intro id
    show id ∈ List.foldl setAdd s.stopChannels _ ↔
      ∃ d, findKey (s.virtualDevices.map markRunning) id = some d ∧ d.isRunning = true
    rw [mem_foldl_setAdd, mem_map_fst_filter_not_running, findKey_map_markRunning]
    cases hfind : findKey s.virtualDevices id with
    | none =>
      constructor
      · rintro (hm | ⟨d, hd, _⟩)
        · obtain ⟨d₀, hf₀, _⟩ := (hinv id).mp hm
          rw [hfind] at hf₀
          cases hf₀
        · have := findKey_eq_some_of_mem hk hd
          rw [hfind] at this
          cases this
      · rintro ⟨d, hd, _⟩
        cases hd
    | some e =>
      constructor
      · intro _
        refine ⟨if e.isRunning then e else { e with isRunning := true }, rfl, ?_⟩
        by_cases he : e.isRunning <;> simp [he]
      · intro _
        by_cases he : e.isRunning
        · exact Or.inl ((hinv id).mpr ⟨e, hfind, he⟩)
        · exact Or.inr ⟨e, mem_of_findKey_eq_some hfind, by simp [he]⟩

theorem wf_create {s : ServiceState} (h : StateWF s) (body : Option VirtualDevice)
    (freshId : String) (hfresh : findKey s.virtualDevices freshId = none) :
    StateWF (createVirtualDevice s body freshId).1 := by
  obtain ⟨hk, hc, hinv⟩ := h
  cases body with
  | none => exact ⟨hk, hc, hinv⟩
  | some d =>
    simp only [createVirtualDevice]
    refine ⟨nodup_keys_alistInsert hk _ _, hc, ?_⟩
    intro x
    rw [show ({ s with virtualDevices := alistInsert s.virtualDevices freshId (createdDevice d freshId) } : ServiceState).stopChannels = s.stopChannels from rfl]
    rw [show ({ s with virtualDevices := alistInsert s.virtualDevices freshId (createdDevice d freshId) } : ServiceState).virtualDevices = alistInsert s.virtualDevices freshId (createdDevice d freshId) from rfl]
    rw [findKey_alistInsert]
    by_cases hx : freshId = x
    · subst hx
      constructor
      · intro hmem
        obtain ⟨d₀, hf₀, _⟩ := (hinv freshId).mp hmem
        rw [hfresh] at hf₀
        cases hf₀
      · rintro ⟨d', hf', hr'⟩
        rw [if_pos rfl] at hf'
        cases hf'
        simp [createdDevice] at hr'
    · rw [if_neg hx]
      exact hinv x

theorem wf_update {s : ServiceState} (h : StateWF s) (id : String)
    (body : Option VirtualDevice) : StateWF (updateVirtualDevice s id body).1 := by
  obtain ⟨hk, hc, hinv⟩ := h
  cases body with
  | none => exact ⟨hk, hc, hinv⟩
  | some d =>
    cases hfind : findKey s.virtualDevices id with
    | none =>
      simp only [updateVirtualDevice, hfind]
      exact ⟨hk, hc, hinv⟩
    | some e =>
      simp only [updateVirtualDevice, hfind]
      refine ⟨nodup_keys_alistInsert hk _ _, hc, ?_⟩
      intro x
      rw [show ({ s with virtualDevices := alistInsert s.virtualDevices id (updatedRecord d e id) } : ServiceState).stopChannels = s.stopChannels from rfl]
      rw [show ({ s with virtualDevices := alistInsert s.virtualDevices id (updatedRecord d e id) } : ServiceState).virtualDevices = alistInsert s.virtualDevices id (updatedRecord d e id) from rfl]
      rw [findKey_alistInsert]
      by_cases hx : id = x
      · subst hx
        rw [if_pos rfl]
        constructor
        · intro hm
          obtain ⟨d₀, hf₀, hr₀⟩ := (hinv id).mp hm
          rw [hfind] at hf₀
          cases hf₀
          exact ⟨updatedRecord d e id, rfl, hr₀⟩
        · rintro ⟨d', hd', hr'⟩
          cases hd'
          exact (hinv id).mpr ⟨e, hfind, hr'⟩
      · rw [if_neg hx]
        exact hinv x

theorem wf_remove {s : ServiceState} (h : StateWF s) (id : String) :
    StateWF (deleteVirtualDevice s id).1 := by
  obtain ⟨hk, hc, hinv⟩ := h
  cases hfind : findKey s.virtualDevices id with
  | none =>
    simp only [deleteVirtualDevice, hfind]
    exact ⟨hk, hc, hinv⟩
  | some d =>
    simp only [deleteVirtualDevice, hfind]
    refine ⟨nodup_keys_alistRemove hk _, ?_, ?_⟩
    · by_cases hrun : d.isRunning
      · simp only [if_pos hrun]
        exact nodup_setRemove hc id
      · simp only [if_neg hrun]
        exact hc
    · intro x
      rw [findKey_alistRemove]
      by_cases hx : id = x
      · subst hx
        rw [if_pos rfl]
        by_cases hrun : d.isRunning
        · simp only [if_pos hrun, mem_setRemove]
          simp
        · simp only [if_neg hrun]
          constructor
          · intro hm
            obtain ⟨d₀, hf₀, hr₀⟩ := (hinv id).mp hm
            rw [hfind] at hf₀
            cases hf₀
            exact absurd hr₀ (by simpa using hrun)
          · rintro ⟨d', hd', _⟩
            cases hd'
      · rw [if_neg hx]
        by_cases hrun : d.isRunning
        · simp only [if_pos hrun, mem_setRemove]
          constructor
          · rintro ⟨hm, _⟩
            exact (hinv x).mp hm
          · intro hex
            exact ⟨(hinv x).mpr hex, fun he => hx he.symm⟩
        · simp only [if_neg hrun]
          exact hinv x

theorem wf_start {s : ServiceState} (h : StateWF s) (id : String) :
    StateWF (startDevice s id).1 := by
  obtain ⟨hk, hc, hinv⟩ := h
  cases hfind : findKey s.virtualDevices id with
  | none =>
    simp only [startDevice, hfind]
    exact ⟨hk, hc, hinv⟩
  | some d =>
    by_cases hrun : d.isRunning
    · simp only [startDevice, hfind, if_pos hrun]
      exact ⟨hk, hc, hinv⟩
    · simp only [startDevice, hfind, if_neg hrun]
      refine ⟨nodup_keys_alistInsert hk _ _, nodup_setAdd hc _, ?_⟩
      intro x
      rw [mem_setAdd, findKey_alistInsert]
      by_cases hx : id = x
      · subst hx
        simp
      · rw [if_neg hx]
        constructor
        · rintro (heq | hm)
          · exact absurd heq (fun he => hx he.symm)
          · exact (hinv x).mp hm
        · intro hex
          exact Or.inr ((hinv x).mpr hex)

theorem wf_stop {s : ServiceState} (h : StateWF s) (id : String) :
    StateWF (stopDevice s id).1 := by
  obtain ⟨hk, hc, hinv⟩ := h
  cases hfind : findKey s.virtualDevices id with
  | none =>
    simp only [stopDevice, hfind]
    exact ⟨hk, hc, hinv⟩
  | some d =>
    by_cases hrun : d.isRunning
    · simp only [stopDevice, hfind, if_pos hrun]
      refine ⟨nodup_keys_alistInsert hk _ _, nodup_setRemove hc _, ?_⟩
      intro x
      rw [mem_setRemove, findKey_alistInsert]
      by_cases hx : id = x
      · subst hx
        simp
      · rw [if_neg hx]
        constructor
        · rintro ⟨hm, _⟩
          exact (hinv x).mp hm
        · intro hex
          exact ⟨(hinv x).mpr hex, fun he => hx he.symm⟩
    · simp only [stopDevice, hfind, if_neg hrun]
      exact ⟨hk, hc, hinv⟩

theorem reachable_wf {s : ServiceState} (h : Reachable s) : StateWF s := by
  induction h with
  | boot u₁ u₂ u₃ => exact wf_boot u₁ u₂ u₃
  | generation _ ih => exact wf_generation ih
  | create body freshId hfresh _ ih => exact wf_create ih body freshId hfresh
  | fetch id _ ih =>
    rw [getVirtualDevice_state]
    exact ih
  | update id body _ ih => exact wf_update ih id body
  | remove id _ ih => exact wf_remove ih id
  | start id _ ih => exact wf_start ih id
  | stop id _ ih => exact wf_stop ih id

theorem roundHalfEven_nonneg {q : ℚ} (h : 0 ≤ q) : 0 ≤ roundHalfEven q := by
  unfold roundHalfEven
  have hf : (0 : ℤ) ≤ ⌊q⌋ := by
    rw [Int.le_floor]
    exact_mod_cast h
  split_ifs <;> omega

theorem twoDigitStr_length : ∀ c : ℕ, c < 100 → (twoDigitStr c).length = 2 := by decide

theorem fmt2_shape (q : ℚ) :
    ∃ c : ℕ, c < 100 ∧
      fmt2 q = toString ((roundHalfEven (q * 100)).toNat / 100) ++ "." ++ twoDigitStr c ∧
      (twoDigitStr c).length = 2 := by
  refine ⟨(roundHalfEven (q * 100)).toNat % 100, Nat.mod_lt _ (by norm_num), rfl, ?_⟩
  exact twoDigitStr_length _ (Nat.mod_lt _ (by norm_num))

theorem generateReading_value (device : VirtualDevice) (r : ℚ) (uuid : String)
    (now : Int) :
    (generateReading device r uuid now).simpleReading.value
      = fmt2 (generateRawValue device r) := rfl

theorem generateReading_units (device : VirtualDevice) (r : ℚ) (uuid : String)
    (now : Int) :
    (generateReading device r uuid now).simpleReading.units = generateUnits device := rfl

theorem newService_devices (u₁ u₂ u₃ : String) (h₁₂ : u₁ ≠ u₂) (h₁₃ : u₁ ≠ u₃)
    (h₂₃ : u₂ ≠ u₃) :
    (newDeviceVirtualService u₁ u₂ u₃).virtualDevices =
      [(u₃, defaultPressureDevice u₃), (u₂, defaultHumidityDevice u₂),
       (u₁, defaultTemperatureDevice u₁)] := by
  simp [newDeviceVirtualService, initializeDefaultDevices, alistInsert,
    List.filter_cons, h₁₂, h₁₃, h₂₃]

theorem startDataGeneration_running {s : ServiceState} {id : String}
    {dev : VirtualDevice}
    (h : findKey (startDataGeneration s).virtualDevices id = some dev) :
    dev.isRunning = true := by
  rw [show (startDataGeneration s).virtualDevices = s.virtualDevices.map markRunning
    from rfl, findKey_map_markRunning] at h
  cases hfind : findKey s.virtualDevices id with
  | none =>
    rw [hfind] at h
    cases h
  | some e =>
    rw [hfind] at h
    simp only [Option.map_some'] at h
    by_cases he : e.isRunning
    · rw [if_pos he] at h
      cases h
      exact he
    · rw [if_neg he] at h
      cases h
      rfl

theorem startDataGeneration_channel {s : ServiceState} (hwf : StateWF s) {id : String}
    {dev : VirtualDevice} (h : findKey s.virtualDevices id = some dev) :
    id ∈ (startDataGeneration s).stopChannels := by
  show id ∈ List.foldl setAdd s.stopChannels _
  rw [mem_foldl_setAdd, mem_map_fst_filter_not_running]
  by_cases hrun : dev.isRunning
  · exact Or.inl ((hwf.2.2 id).mpr ⟨dev, h, hrun⟩)
  · exact Or.inr ⟨dev, mem_of_findKey_eq_some h, by simpa using hrun⟩

theorem startDataGeneration_length (s : ServiceState) :
    (startDataGeneration s).virtualDevices.length = s.virtualDevices.length :=
  List.length_map _ _

theorem updateVirtualDevice_some {s : ServiceState} {id : String}
    {d e : VirtualDevice} (hfind : findKey s.virtualDevices id = some e) :
    updateVirtualDevice s id (some d)
      = ({ s with virtualDevices :=
            alistInsert s.virtualDevices id (updatedRecord d e id) }, 200) := by
  simp [updateVirtualDevice, hfind]

/-- C1: in every reachable state of the service — after any sequence of
construction, `Initialize`, create, get, update, delete, start and stop
— an id holds an entry in the `stopChannels` map if and only if its
record exists in the registry with `isRunning = true`. -/
theorem c1_stop_channels_iff_running (s : ServiceState) (h : Reachable s)
    (id : String) :
    id ∈ s.stopChannels ↔
      ∃ d, findKey s.virtualDevices id = some d ∧ d.isRunning = true :=
  (reachable_wf h).2.2 id

/-- C1 witness: the correspondence instantiated at the initialized
service with concrete UUIDs. -/
theorem c1_stop_channels_iff_running_witness :
    ("a" ∈ runABC.stopChannels ↔
      ∃ d, findKey runABC.virtualDevices "a" = some d ∧ d.isRunning = true) :=
  c1_stop_channels_iff_running runABC
    (Reachable.generation (Reachable.boot "a" "b" "c")) "a"

/-- C2: the code does not block stop/delete until the loop has stopped.
In the interleaved semantics of `stopDevice` and the generation
goroutine, there is an execution in which the device is started, its
ticker fires (the goroutine enters `publishSensorReading`), `stopDevice`
then runs to completion — record stopped, channel closed and removed —
and only afterwards the in-flight reading emission completes: the
emission log grows after `stopDevice` has already returned, which the
claim forbids. -/
theorem c2_emission_after_stop_returns :
    CStep concBoot concStarted ∧ CStep concStarted concTicked ∧
    CStep concTicked concStopped ∧ CStep concStopped concEmitted ∧
    concStopped.emitted = [] ∧ concEmitted.emitted = ["d1"] ∧
    findKey concStopped.virtualDevices "d1" = some concDevice ∧
    concDevice.isRunning = false ∧
    findKey concStopped.loops "d1" = some LoopPhase.emitting := by
  refine ⟨?_, ?_, ?_, ?_, rfl, rfl, by decide, rfl, by decide⟩
  · exact CStep.startReq concBoot "d1" concDevice (by decide) rfl
  · exact CStep.tickFire concStarted "d1" (by decide)
  · exact CStep.stopReq concTicked "d1" { concDevice with isRunning := true }
      (by decide) rfl
  · exact CStep.emitFinish concStopped "d1" (by decide)

/-- C3: for every device and every draw `r` of `rand.Float64()`
(`0 ≤ r < 1`), the generated reading carries the value formatted to two
decimal places as a string, the raw value lies in the documented range
for the kind read from `protocols["type"]` — temperature in [20, 35)
with unit Celsius, humidity in [30, 70) with Percent, pressure in
[1013, 1033) with hPa, anything else in [0, 100) with Units — and
generation is a total function (always succeeds). -/
theorem c3_reading_range_units_format (device : VirtualDevice) (r : ℚ)
    (uuid : String) (now : Int) (h0 : 0 ≤ r) (h1 : r < 1) :
    (generateReading device r uuid now).simpleReading.value
      = fmt2 (generateRawValue device r) ∧
    (generateReading device r uuid now).simpleReading.units
      = generateUnits device ∧
    (protoGet device.protocols "type" = "temperature" →
      20 ≤ generateRawValue device r ∧ generateRawValue device r < 35 ∧
      generateUnits device = "Celsius") ∧
    (protoGet device.protocols "type" = "humidity" →
      30 ≤ generateRawValue device r ∧ generateRawValue device r < 70 ∧
      generateUnits device = "Percent") ∧
    (protoGet device.protocols "type" = "pressure" →
      1013 ≤ generateRawValue device r ∧ generateRawValue device r < 1033 ∧
      generateUnits device = "hPa") ∧
    (protoGet device.protocols "type" ≠ "temperature" →
      protoGet device.protocols "type" ≠ "humidity" →
      protoGet device.protocols "type" ≠ "pressure" →
      0 ≤ generateRawValue device r ∧ generateRawValue device r < 100 ∧
      generateUnits device = "Units") ∧
    (∃ c : ℕ, c < 100 ∧
      fmt2 (generateRawValue device r)
        = toString ((roundHalfEven (generateRawValue device r * 100)).toNat / 100)
          ++ "." ++ twoDigitStr c ∧
      (twoDigitStr c).length = 2) := by
  refine ⟨rfl, rfl, ?_, ?_, ?_, ?_, fmt2_shape _⟩
  · intro hk
    have hv : generateRawValue device r = 20 + r * 15 := by
      simp [generateRawValue, hk]
    refine ⟨by rw [hv]; linarith, by rw [hv]; linarith, by simp [generateUnits, hk]⟩
  · intro hk
    have hv : generateRawValue device r = 30 + r * 40 := by
      simp [generateRawValue, hk]
    refine ⟨by rw [hv]; linarith, by rw [hv]; linarith, by simp [generateUnits, hk]⟩
  · intro hk
    have hv : generateRawValue device r = 1013 + r * 20 := by
      simp [generateRawValue, hk]
    refine ⟨by rw [hv]; linarith, by rw [hv]; linarith, by simp [generateUnits, hk]⟩
  · intro hk₁ hk₂ hk₃
    have hv : generateRawValue device r = r * 100 := by
      simp [generateRawValue, hk₁, hk₂, hk₃]
    refine ⟨by rw [hv]; linarith, by rw [hv]; linarith,
      by simp [generateUnits, hk₁, hk₂, hk₃]⟩

/-- C3 witness: a temperature device at `r = 1/2` draws a value in
[20, 35) with unit Celsius. -/
theorem c3_reading_range_units_format_witness :
    20 ≤ generateRawValue (defaultTemperatureDevice "u") (1/2) ∧
    generateRawValue (defaultTemperatureDevice "u") (1/2) < 35 ∧
    (generateReading (defaultTemperatureDevice "u") (1/2) "uuid" 0).simpleReading.units
      = "Celsius" := by
  have h := c3_reading_range_units_format (defaultTemperatureDevice "u") (1/2)
    "uuid" 0 (by norm_num) (by norm_num)
  obtain ⟨hval, hunits, htemp, _⟩ := h
  obtain ⟨h20, h35, hcel⟩ := htemp rfl
  exact ⟨h20, h35, by rw [hunits, hcel]⟩

/-- C4: for every decoded descriptor, the record stored by `create` has
`isRunning = false` (even if the descriptor set it true), carries the
freshly generated id in place of any id in the descriptor, and receives
the defaults `adminState = UNLOCKED` and `operatingState = UP` exactly
when the descriptor leaves those fields empty. -/
theorem c4_create_applies_defaults (s : ServiceState) (d : VirtualDevice)
    (freshId : String) :
    (createVirtualDevice s (some d) freshId).2 = 201 ∧
    findKey (createVirtualDevice s (some d) freshId).1.virtualDevices freshId
      = some (createdDevice d freshId) ∧
    (createdDevice d freshId).isRunning = false ∧
    (createdDevice d freshId).id = freshId ∧
    (createdDevice d freshId).name = d.name ∧
    (d.adminState = "" → (createdDevice d freshId).adminState = Unlocked) ∧
    (d.adminState ≠ "" → (createdDevice d freshId).adminState = d.adminState) ∧
    (d.operatingState = "" → (createdDevice d freshId).operatingState = Up) ∧
    (d.operatingState ≠ "" →
      (createdDevice d freshId).operatingState = d.operatingState) := by
  refine ⟨rfl, ?_, rfl, rfl, rfl, ?_, ?_, ?_, ?_⟩
  · show findKey (alistInsert s.virtualDevices freshId (createdDevice d freshId))
      freshId = _
    rw [findKey_alistInsert, if_pos rfl]
  · intro h
    simp [createdDevice, h]
  · intro h
    simp [createdDevice, h]
  · intro h
    simp [createdDevice, h]
  · intro h
    simp [createdDevice, h]

/-- C4 witness: a descriptor carrying its own id and `isRunning = true`
is stored under the fresh id, stopped, with defaulted states. -/
theorem c4_create_applies_defaults_witness :
    (createVirtualDevice emptyService (some descRunning) "f1").2 = 201 ∧
    findKey (createVirtualDevice emptyService (some descRunning) "f1").1.virtualDevices
      "f1" = some (createdDevice descRunning "f1") ∧
    (createdDevice descRunning "f1").isRunning = false ∧
    (createdDevice descRunning "f1").adminState = Unlocked := by
  have h := c4_create_applies_defaults emptyService descRunning "f1"
  exact ⟨h.1, h.2.1, h.2.2.1, h.2.2.2.2.2.1 rfl⟩

/-- C5 counterexample: the claim says a descriptor missing the name
fails with 400 and inserts nothing; but the decode of `\x7b\x7d` — a
descriptor with every field at its zero value, name included — is
accepted with 201 and the device is inserted. -/
theorem c5_missing_name_not_rejected :
    noNameDescriptor.name = "" ∧
    (createVirtualDevice emptyService (some noNameDescriptor) "id-1").2 = 201 ∧
    (createVirtualDevice emptyService (some noNameDescriptor) "id-1").2 ≠ 400 ∧
    findKey (createVirtualDevice emptyService
      (some noNameDescriptor) "id-1").1.virtualDevices "id-1" ≠ none := by
  decide

/-- C5 amended: `create` fails with 400 and inserts nothing exactly when
the request body fails to JSON-decode; every successfully decoded
descriptor — including one missing descriptive fields such as name — is
inserted and answered with 201. -/
theorem c5_create_rejects_only_invalid_json (s : ServiceState) (d : VirtualDevice)
    (freshId : String) :
    createVirtualDevice s none freshId = (s, 400) ∧
    (createVirtualDevice s (some d) freshId).2 = 201 ∧
    findKey (createVirtualDevice s (some d) freshId).1.virtualDevices freshId
      = some (createdDevice d freshId) := by
  refine ⟨rfl, rfl, ?_⟩
  show findKey (alistInsert s.virtualDevices freshId (createdDevice d freshId))
    freshId = _
  rw [findKey_alistInsert, if_pos rfl]

/-- C6: get, update, delete, start and stop on an id absent from the
registry answer 404 and leave the registry and the stop-channel map
unchanged. -/
theorem c6_not_found_state_unchanged (s : ServiceState) (id : String)
    (d : VirtualDevice) (h : findKey s.virtualDevices id = none) :
    getVirtualDevice s id = (s, 404, none) ∧
    updateVirtualDevice s id (some d) = (s, 404) ∧
    deleteVirtualDevice s id = (s, 404) ∧
    startDevice s id = (s, 404) ∧
    stopDevice s id = (s, 404) :=
  ⟨by simp [getVirtualDevice, h], by simp [updateVirtualDevice, h],
   by simp [deleteVirtualDevice, h], by simp [startDevice, h],
   by simp [stopDevice, h]⟩

/-- C6 witness: the five operations on an unknown id against the
freshly constructed service. -/
theorem c6_not_found_state_unchanged_witness :
    getVirtualDevice bootABC "zzz" = (bootABC, 404, none) ∧
    updateVirtualDevice bootABC "zzz" (some noNameDescriptor) = (bootABC, 404) ∧
    deleteVirtualDevice bootABC "zzz" = (bootABC, 404) ∧
    startDevice bootABC "zzz" = (bootABC, 404) ∧
    stopDevice bootABC "zzz" = (bootABC, 404) :=
  c6_not_found_state_unchanged bootABC "zzz" noNameDescriptor (by decide)

/-- C7: in every reachable state, `start` on a device that is already
running and `stop` on a device that is already stopped leave the state
untouched and still answer 200; the running device keeps exactly one
stop channel attached, the stopped one keeps zero. -/
theorem c7_start_stop_idempotent (s : ServiceState) (h : Reachable s)
    (id : String) (d : VirtualDevice)
    (hfind : findKey s.virtualDevices id = some d) :
    (d.isRunning = true →
      startDevice s id = (s, 200) ∧ s.stopChannels.count id = 1) ∧
    (d.isRunning = false →
      stopDevice s id = (s, 200) ∧ s.stopChannels.count id = 0) := by
  obtain ⟨hk, hc, hinv⟩ := reachable_wf h
  constructor
  · intro hrun
    refine ⟨by simp [startDevice, hfind, hrun], ?_⟩
    exact List.count_eq_one_of_mem hc ((hinv id).mpr ⟨d, hfind, hrun⟩)
  · intro hstop
    refine ⟨by simp [stopDevice, hfind, hstop], ?_⟩
    apply List.count_eq_zero_of_not_mem
    intro hmem
    obtain ⟨d₀, hf₀, hr₀⟩ := (hinv id).mp hmem
    rw [hfind] at hf₀
    cases hf₀
    rw [hstop] at hr₀
    cases hr₀

/-- C7 witness: `start` on the already-running default temperature
device of the initialized service is a 200 no-op with one channel. -/
theorem c7_start_stop_idempotent_witness :
    startDevice runABC "a" = (runABC, 200) ∧ runABC.stopChannels.count "a" = 1 := by
  have h := c7_start_stop_idempotent runABC
    (Reachable.generation (Reachable.boot "a" "b" "c")) "a"
    { defaultTemperatureDevice "a" with isRunning := true } (by decide)
  exact h.1 rfl

/-- C8: `update` on an existing device answers 200 and stores the
decoded descriptor with the record id and the record running flag
written back over it, leaving every other registry entry untouched. -/
theorem c8_update_preserves_id_and_running (s : ServiceState) (id : String)
    (d e : VirtualDevice) (hfind : findKey s.virtualDevices id = some e) :
    (updateVirtualDevice s id (some d)).2 = 200 ∧
    findKey (updateVirtualDevice s id (some d)).1.virtualDevices id
      = some (updatedRecord d e id) ∧
    (updatedRecord d e id).id = id ∧
    (updatedRecord d e id).isRunning = e.isRunning ∧
    (updatedRecord d e id).name = d.name ∧
    (updatedRecord d e id).description = d.description ∧
    (updatedRecord d e id).profileName = d.profileName ∧
    (updatedRecord d e id).adminState = d.adminState ∧
    (updatedRecord d e id).operatingState = d.operatingState ∧
    (updatedRecord d e id).protocols = d.protocols ∧
    (∀ k, k ≠ id →
      findKey (updateVirtualDevice s id (some d)).1.virtualDevices k
        = findKey s.virtualDevices k) := by
  rw [updateVirtualDevice_some hfind]
  refine ⟨rfl, ?_, rfl, rfl, rfl, rfl, rfl, rfl, rfl, rfl, ?_⟩
  · show findKey (alistInsert s.virtualDevices id (updatedRecord d e id)) id = _
    rw [findKey_alistInsert, if_pos rfl]
  · intro k hk
    show findKey (alistInsert s.virtualDevices id (updatedRecord d e id)) k = _
    rw [findKey_alistInsert, if_neg (fun he => hk he.symm)]

/-- C8 witness: updating the running default temperature device keeps
its id and running flag. -/
theorem c8_update_preserves_id_and_running_witness :
    (updateVirtualDevice runABC "a" (some noNameDescriptor)).2 = 200 ∧
    findKey (updateVirtualDevice runABC "a" (some noNameDescriptor)).1.virtualDevices
        "a"
      = some (updatedRecord noNameDescriptor
          { defaultTemperatureDevice "a" with isRunning := true } "a") := by
  have h := c8_update_preserves_id_and_running runABC "a" noNameDescriptor
    { defaultTemperatureDevice "a" with isRunning := true } (by decide)
  exact ⟨h.1, h.2.1⟩

/-- C9: `update` overwrites every stored field other than id and
`isRunning` with the decoded descriptor's value, so fields absent from
the request body — `lastReadingAt`, `serviceName`, the protocol bag —
are reset to their zero values; in particular an update whose body
omits `protocols` clears a running device's kind selector
`protocols["type"]`. -/
theorem c9_update_resets_omitted_fields (s : ServiceState) (id : String)
    (d e : VirtualDevice) (hfind : findKey s.virtualDevices id = some e) :
    findKey (updateVirtualDevice s id (some d)).1.virtualDevices id
      = some (updatedRecord d e id) ∧
    (updatedRecord d e id).protocols = d.protocols ∧
    (updatedRecord d e id).lastReading = d.lastReading ∧
    (updatedRecord d e id).serviceName = d.serviceName ∧
    (updatedRecord d e id).isRunning = e.isRunning ∧
    (d.protocols = [] → protoGet (updatedRecord d e id).protocols "type" = "") := by
  rw [updateVirtualDevice_some hfind]
  refine ⟨?_, rfl, rfl, rfl, rfl, ?_⟩
  · show findKey (alistInsert s.virtualDevices id (updatedRecord d e id)) id = _
    rw [findKey_alistInsert, if_pos rfl]
  · intro hp
    show protoGet (updatedRecord d e id).protocols "type" = ""
    rw [show (updatedRecord d e id).protocols = d.protocols from rfl, hp]
    rfl

/-- C9 witness: updating the running temperature device with the decode
of `\x7b\x7d` silently clears its kind selector while it keeps
running. -/
theorem c9_update_resets_omitted_fields_witness :
    findKey (updateVirtualDevice runABC "a" (some noNameDescriptor)).1.virtualDevices
        "a"
      = some (updatedRecord noNameDescriptor
          { defaultTemperatureDevice "a" with isRunning := true } "a") ∧
    protoGet (updatedRecord noNameDescriptor
        { defaultTemperatureDevice "a" with isRunning := true } "a").protocols "type"
      = "" ∧
    (updatedRecord noNameDescriptor
        { defaultTemperatureDevice "a" with isRunning := true } "a").isRunning
      = true := by
  have h := c9_update_resets_omitted_fields runABC "a" noNameDescriptor
    { defaultTemperatureDevice "a" with isRunning := true } (by decide)
  exact ⟨h.1, h.2.2.2.2.2 rfl, h.2.2.2.2.1.trans rfl⟩

/-- C10: the constructor pre-populates the registry with three stopped
default devices of kinds temperature, humidity and pressure, and
`Initialize` then marks every registered device running and attaches a
stop channel to each, so after bootstrap the registry holds three
running devices without any start call. -/
theorem c10_bootstrap_starts_all_defaults (u₁ u₂ u₃ : String) (h₁₂ : u₁ ≠ u₂)
    (h₁₃ : u₁ ≠ u₃) (h₂₃ : u₂ ≠ u₃) :
    (newDeviceVirtualService u₁ u₂ u₃).virtualDevices.length = 3 ∧
    (newDeviceVirtualService u₁ u₂ u₃).stopChannels = [] ∧
    findKey (newDeviceVirtualService u₁ u₂ u₃).virtualDevices u₁
      = some (defaultTemperatureDevice u₁) ∧
    findKey (newDeviceVirtualService u₁ u₂ u₃).virtualDevices u₂
      = some (defaultHumidityDevice u₂) ∧
    findKey (newDeviceVirtualService u₁ u₂ u₃).virtualDevices u₃
      = some (defaultPressureDevice u₃) ∧
    (defaultTemperatureDevice u₁).isRunning = false ∧
    (defaultHumidityDevice u₂).isRunning = false ∧
    (defaultPressureDevice u₃).isRunning = false ∧
    protoGet (defaultTemperatureDevice u₁).protocols "type" = "temperature" ∧
    protoGet (defaultHumidityDevice u₂).protocols "type" = "humidity" ∧
    protoGet (defaultPressureDevice u₃).protocols "type" = "pressure" ∧
    (serviceInit (newDeviceVirtualService u₁ u₂ u₃)).1.virtualDevices.length = 3 ∧
    (∀ id dev,
      findKey (serviceInit (newDeviceVirtualService u₁ u₂ u₃)).1.virtualDevices id
          = some dev →
      dev.isRunning = true ∧
      id ∈ (serviceInit (newDeviceVirtualService u₁ u₂ u₃)).1.stopChannels) := by
  have hdev := newService_devices u₁ u₂ u₃ h₁₂ h₁₃ h₂₃
  refine ⟨?_, rfl, ?_, ?_, ?_, rfl, rfl, rfl, rfl, rfl, rfl, ?_, ?_⟩
  · rw [hdev]
    rfl
  · rw [hdev]
    simp [findKey, Ne.symm h₁₃, Ne.symm h₁₂]
  · rw [hdev]
    simp [findKey, Ne.symm h₂₃]
  · rw [hdev]
    simp [findKey]
  · rw [show (serviceInit (newDeviceVirtualService u₁ u₂ u₃)).1
        = startDataGeneration (newDeviceVirtualService u₁ u₂ u₃) from rfl,
      startDataGeneration_length, hdev]
    rfl
  · intro id dev hfind
    refine ⟨startDataGeneration_running hfind, ?_⟩
    have hfind' := hfind
    rw [show (serviceInit (newDeviceVirtualService u₁ u₂ u₃)).1.virtualDevices
        = (newDeviceVirtualService u₁ u₂ u₃).virtualDevices.map markRunning from rfl,
      findKey_map_markRunning] at hfind'
    cases hf : findKey (newDeviceVirtualService u₁ u₂ u₃).virtualDevices id with
    | none =>
      rw [hf] at hfind'
      cases hfind'
    | some e =>
      exact startDataGeneration_channel (wf_boot u₁ u₂ u₃) hf

/-- C10 witness: bootstrap with three concrete distinct UUIDs. -/
theorem c10_bootstrap_starts_all_defaults_witness :
    (newDeviceVirtualService "a" "b" "c").virtualDevices.length = 3 ∧
    findKey (newDeviceVirtualService "a" "b" "c").virtualDevices "a"
      = some (defaultTemperatureDevice "a") ∧
    (serviceInit (newDeviceVirtualService "a" "b" "c")).1.virtualDevices.length
      = 3 := by
  have h := c10_bootstrap_starts_all_defaults "a" "b" "c"
    (by decide) (by decide) (by decide)
  obtain ⟨hlen, _, hfa, _, _, _, _, _, _, _, _, hilen, _⟩ := h
  exact ⟨hlen, hfa, hilen⟩

end Virtual
